import Mathlib

/-!
Shallow embedding of two components of the `nebullvm` repository:

* `chatllama/rlhf/model_loader.py` — the `ModelLoader` class: checkpoint
  and model path resolution (`look_for_last_checkpoint`, `get_model_path`,
  `check_model_path`).
* `nebullvm/tools/diffusers.py` — the Stable-Diffusion adapter classes
  (`BaseModel`, `CLIP`, `UNet`, `VAE`, `VAEEncoder`): dimension validation
  (`check_dims`), min/max dimension bounds (`get_minmax_dims`), dynamic
  input profiles (`get_input_profile`) and static shape dictionaries
  (`get_shape_dict`).

Python exceptions are modelled by an explicit error type and `Except`;
the filesystem effects of the loader (`os.listdir`, `os.path.exists`,
`os.makedirs`) are modelled by an explicit filesystem value threaded
through the functions.  Machine integers do not overflow in any of the
modelled code paths, so `Nat` is used throughout.
-/

/-- Exceptions that the modelled Python code can raise. -/
inductive PyError where
  /-- A failed `assert` statement. -/
  | assertionError : PyError
  /-- Error of `raise ValueError(msg)`. -/
  | valueError : String → PyError
  /-- Use of an unbound local variable. -/
  | nameError : PyError
  /-- Error of `os.listdir` on a folder that does not exist. -/
  | fileNotFoundError : PyError
  /-- Attribute access on `None` (e.g. `None.split`). -/
  | attributeError : PyError
deriving DecidableEq, Repr

/-- Lexicographic comparison of character lists by Unicode code point,
matching both Python string comparison and Lean's `String` order. -/
def charListLe : List Char → List Char → Bool
  | [], _ => true
  | _ :: _, [] => false
  | a :: as, b :: bs =>
    if a.toNat < b.toNat then true
    else if b.toNat < a.toNat then false
    else charListLe as bs

/-- Comparison `strLe a b` is Python's `a <= b` on strings (code-point lexicographic). -/
def strLe (a b : String) : Bool := charListLe a.data b.data

/-- Insert a string into a sorted list, keeping it sorted ascending. -/
def insertSorted (x : String) : List String → List String
  | [] => [x]
  | y :: ys => if strLe x y then x :: y :: ys else y :: insertSorted x ys

/-- Python's `sorted` on a list of strings: ascending insertion sort.
(The filenames being sorted are pairwise distinct, so stability does not
matter.) -/
def sortedStrings : List String → List String
  | [] => []
  | x :: xs => insertSorted x (sortedStrings xs)

/-- Split a character list at every occurrence of the separator `c`.
The result is always nonempty. -/
def splitOnChar (c : Char) : List Char → List (List Char)
  | [] => [[]]
  | x :: xs =>
    match splitOnChar c xs with
    | [] => [[]]
    | h :: t => if x = c then [] :: h :: t else (x :: h) :: t

/-- Python's `s.split(sep)` for a single-character separator `sep`. -/
def pySplit (sep : Char) (s : String) : List String :=
  (splitOnChar sep s.data).map (fun l => String.mk l)

/-- Whether the first list is a prefix of the second (by character). -/
def isPrefixOfChars : List Char → List Char → Bool
  | [], _ => true
  | _ :: _, [] => false
  | a :: as, b :: bs => a = b && isPrefixOfChars as bs

/-- Python's `s.startswith(pre)`. -/
def pyStartswith (s pre : String) : Bool := isPrefixOfChars pre.data s.data

/-- Whether a character is an ASCII digit. -/
def isDigitChar (c : Char) : Bool := 48 ≤ c.toNat && c.toNat ≤ 57

/-- Python's `int(s)` restricted to nonempty all-digit strings, the format
of the checkpoint epoch suffixes; any other string raises `ValueError`,
modelled by `none`. -/
def pyInt (s : String) : Option Nat :=
  if s.data ≠ [] ∧ s.data.all isDigitChar then
    some (s.data.foldl (fun n c => n * 10 + (c.toNat - 48)) 0)
  else none

/-- Model of `os.path.join(a, b)` in the POSIX, relative-second-argument case used
throughout the loader. -/
def joinPath (a b : String) : String := a ++ "/" ++ b

/-- Model of `os.path.split(s)[-1]`: the part of `s` after its last `/` (all of `s`
when it has no `/`). -/
def lastPathSegment (s : String) : String := (pySplit '/' s).getLastD ""

/-- A filesystem snapshot: the directories that exist (each with the list
of entry names `os.listdir` returns for it) and the plain files that
exist.  `os.path.exists` is true for either kind of path. -/
structure FileSystem where
  dirs : List (String × List String)
  files : List String
deriving DecidableEq, Repr

/-- Model of `os.listdir(p)`: the entries of directory `p`, or `none` when the
directory does not exist (Python raises `FileNotFoundError`). -/
def FileSystem.listdir (fs : FileSystem) (p : String) : Option (List String) :=
  (fs.dirs.find? (fun d => d.1 == p)).map (fun d => d.2)

/-- Model of `os.path.exists(p)`. -/
def FileSystem.pathExists (fs : FileSystem) (p : String) : Bool :=
  fs.files.contains p || fs.dirs.any (fun d => d.1 == p)

/-- Model of `os.makedirs(p)`: create directory `p` (empty). -/
def FileSystem.makedirs (fs : FileSystem) (p : String) : FileSystem :=
  { fs with dirs := (p, []) :: fs.dirs }

/-- Modelled from the spec: the configuration classes `ConfigActor`,
`ConfigCritic`, `ConfigReward` and `Config` live in
`chatllama/rlhf/config.py`, which is not part of the sources.  Per the
spec's data model, a config carries a base folder and a model identifier;
the role is one of Actor, Critic, Reward, ActorRL; Reward vs Critic is
decided by the `is_reward` flag on the Reward config, and `ConfigCritic`
is a distinct type that `get_model_path`'s `isinstance` chain does not
recognize.  The composite (ActorRL) `Config` holds a nested actor config,
of which only the base folder and model identifier are relevant here. -/
inductive ConfigType where
  /-- Constructor for `ConfigActor` with its `model_folder` and `model` fields. -/
  | actor (model_folder : String) (model : String) : ConfigType
  /-- Constructor for `ConfigReward` with its `model_folder`, `model` and `is_reward` fields. -/
  | reward (model_folder : String) (model : String) (is_reward : Bool) : ConfigType
  /-- Constructor for `ConfigCritic` (unrecognized by `get_model_path`). -/
  | critic (model_folder : String) (model : String) : ConfigType
  /-- The composite `Config` (ActorRL); `actor_model_folder` and
  `actor_model` are its nested actor's `model_folder` and `model`. -/
  | composite (actor_model_folder : String) (actor_model : String) : ConfigType
deriving DecidableEq, Repr

/-- Lines 85-92 of `model_loader.py`: the base folder of the config
(`config.model_folder`, or `config.actor.model_folder` for the composite
`Config`); `none` means the `isinstance` chain falls through to
`raise ValueError`. -/
def configBaseFolder : ConfigType → Option String
  | .actor mf _ => some mf
  | .reward mf _ _ => some mf
  | .composite amf _ => some amf
  | .critic _ _ => none

/-- Lines 100-110 of `model_loader.py`: the role segment appended to the
model folder.  `ConfigCritic` never reaches this point. -/
def roleSegment : ConfigType → String
  | .reward _ _ is_reward => if is_reward then "reward" else "critic"
  | .actor _ _ => "actor"
  | .composite _ _ => "actor_rl"
  | .critic _ _ => ""

/-- Lines 118-124 of `model_loader.py`: the raw model name taken from the
config (`config.actor.model` for the composite `Config`, `config.model`
for actor/reward). -/
def configIdent : ConfigType → Option String
  | .composite _ am => some am
  | .reward _ m _ => some m
  | .actor _ m => some m
  | .critic _ _ => none

/-- Model of `ModelLoader.look_for_last_checkpoint(model_folder, model_name)`
(model_loader.py lines 24-46): strip the extension from `model_name`,
list the folder (raising `FileNotFoundError` when it does not exist),
keep the entries starting with the stripped name, and return the last
one in ascending string order, or `None` when there is no match. -/
def look_for_last_checkpoint (fs : FileSystem) (model_folder model_name : String) :
    Except PyError (Option String) :=
  let model_name := (pySplit '.' model_name).headD ""
  match fs.listdir model_folder with
  | none => .error .fileNotFoundError
  | some entries =>
    let checkpoints := entries.filter (fun f => pyStartswith f model_name)
    if checkpoints.length = 0 then .ok none
    else .ok (some ((sortedStrings checkpoints).getLastD ""))

/-- Model of `ModelLoader.get_model_path(config, is_checkpoint, current_epoch)`
(model_loader.py lines 48-145).  `hf_models` is the allow-list imported
from `chatllama/rlhf/model_list.py`, which is not part of the sources;
modelled from the spec as an opaque fixed list of hub identifiers and
passed as a parameter.  Returns `(model_folder, model_name, path)`
together with the filesystem after the `os.makedirs` side effect. -/
def get_model_path (hf_models : List String) (config : ConfigType)
    (is_checkpoint : Bool) (current_epoch : Option Nat) (fs : FileSystem) :
    Except PyError ((String × String × Option String) × FileSystem) :=
  match configBaseFolder config with
  | none => .error (.valueError "Config type not recognized during saving or loading")
  | some model_folder =>
    let model_folder :=
      if is_checkpoint then joinPath model_folder "checkpoints" else model_folder
    let model_folder := joinPath model_folder (roleSegment config)
    let fs := if fs.pathExists model_folder = false then fs.makedirs model_folder else fs
    match configIdent config with
    | none => .error (.valueError "Model name not found")
    | some model_name =>
      let model_name :=
        if hf_models.contains model_name then lastPathSegment model_name else model_name
      let model_name :=
        match is_checkpoint, current_epoch with
        | true, some e => model_name ++ "_epoch_" ++ toString e ++ ".pt"
        | _, _ => model_name ++ ".pt"
      let path :=
        match is_checkpoint, current_epoch with
        | true, none => none
        | _, _ => some (joinPath model_folder model_name)
      .ok ((model_folder, model_name, path), fs)

/-- Model of `ModelLoader.check_model_path(config, is_checkpoint, current_epoch)`
(model_loader.py lines 147-207).  The Python local `last_checkpoint` is
bound only inside the scan branch; its binding state is carried as an
`Option (Option String)` (`none` = unbound) so that the epoch-extraction
line `int(last_checkpoint.split("_")[-1].split(".")[0])` raises
`NameError` exactly when the source does.  The function returns only the
resolved `path` (the source's single `return path`). -/
def check_model_path (hf_models : List String) (config : ConfigType)
    (is_checkpoint : Bool) (current_epoch : Option Nat) (fs : FileSystem) :
    Except PyError (Option String) :=
  match get_model_path hf_models config is_checkpoint current_epoch fs with
  | .error e => .error e
  | .ok ((model_folder, model_name, path), fs) =>
    let scanned : Except PyError (Option String × Option (Option String)) :=
      match is_checkpoint, current_epoch with
      | true, none =>
        match look_for_last_checkpoint fs model_folder model_name with
        | .error e => .error e
        | .ok last_checkpoint =>
          match last_checkpoint with
          | some lc => .ok (some (joinPath model_folder lc), some last_checkpoint)
          | none => .ok (path, some last_checkpoint)
      | _, _ => .ok (path, none)
    match scanned with
    | .error e => .error e
    | .ok (path, lcBound) =>
      let path :=
        match path with
        | some p => if fs.pathExists p = false then none else some p
        | none => none
      match path with
      | none => .ok none
      | some p =>
        if is_checkpoint then
          match lcBound with
          | none => .error .nameError
          | some none => .error .attributeError
          | some (some lc) =>
            match pyInt (((pySplit '_' lc).getLastD "" |> pySplit '.').headD "") with
            | none => .error (.valueError "invalid literal for int")
            | some _ => .ok (some p)
        else .ok (some p)

/-- The dimension-bound fields that `BaseModel.__init__`
(diffusers.py lines 293-320) stores on every Stable-Diffusion adapter. -/
structure BaseModel where
  min_batch : Nat
  max_batch : Nat
  min_image_shape : Nat
  max_image_shape : Nat
  min_latent_shape : Nat
  max_latent_shape : Nat
  embedding_dim : Nat
  text_maxlen : Nat
deriving DecidableEq, Repr

/-- Model of `BaseModel.__init__(..., max_batch_size, embedding_dim, text_maxlen)`:
`min_batch = 1`, image bounds 256 and 1024, latent bounds `image // 8`. -/
def BaseModel.make (max_batch_size embedding_dim text_maxlen : Nat) : BaseModel :=
  { min_batch := 1
    max_batch := max_batch_size
    min_image_shape := 256
    max_image_shape := 1024
    min_latent_shape := 256 / 8
    max_latent_shape := 1024 / 8
    embedding_dim := embedding_dim
    text_maxlen := text_maxlen }

/-- Model of `BaseModel.check_dims(batch_size, image_height, image_width)`
(diffusers.py lines 358-371).  A failed `assert` raises
`AssertionError`.  Note the source joins the two divisibility checks
with `or`, and computes the latent dimensions by floor division. -/
def BaseModel.check_dims (m : BaseModel) (batch_size image_height image_width : Nat) :
    Except PyError (Nat × Nat) :=
  if ¬ (m.min_batch ≤ batch_size ∧ batch_size ≤ m.max_batch) then .error .assertionError
  else if ¬ (image_height % 8 = 0 ∨ image_width % 8 = 0) then .error .assertionError
  else
    let latent_height := image_height / 8
    let latent_width := image_width / 8
    if ¬ (m.min_latent_shape ≤ latent_height ∧ latent_height ≤ m.max_latent_shape) then
      .error .assertionError
    else if ¬ (m.min_latent_shape ≤ latent_width ∧ latent_width ≤ m.max_latent_shape) then
      .error .assertionError
    else .ok (latent_height, latent_width)

/-- The 10-tuple returned by `BaseModel.get_minmax_dims`
(diffusers.py lines 400-411), with fields named and ordered as in the
source's tuple. -/
structure MinMaxDims where
  min_batch : Nat
  max_batch : Nat
  min_image_height : Nat
  max_image_height : Nat
  min_image_width : Nat
  max_image_width : Nat
  min_latent_height : Nat
  max_latent_height : Nat
  min_latent_width : Nat
  max_latent_width : Nat
deriving DecidableEq, Repr

/-- Model of `BaseModel.get_minmax_dims(batch_size, image_height, image_width,
static_batch, static_shape)` (diffusers.py lines 373-411). -/
def BaseModel.get_minmax_dims (m : BaseModel)
    (batch_size image_height image_width : Nat) (static_batch static_shape : Bool) :
    MinMaxDims :=
  let latent_height := image_height / 8
  let latent_width := image_width / 8
  { min_batch := if static_batch then batch_size else m.min_batch
    max_batch := if static_batch then batch_size else m.max_batch
    min_image_height := if static_shape then image_height else m.min_image_shape
    max_image_height := if static_shape then image_height else m.max_image_shape
    min_image_width := if static_shape then image_width else m.min_image_shape
    max_image_width := if static_shape then image_width else m.max_image_shape
    min_latent_height := if static_shape then latent_height else m.min_latent_shape
    max_latent_height := if static_shape then latent_height else m.max_latent_shape
    min_latent_width := if static_shape then latent_width else m.min_latent_shape
    max_latent_width := if static_shape then latent_width else m.max_latent_shape }

/-- A dynamic-axis input profile: for each input tensor name the
`(min, opt, max)` shape triple. -/
def ShapeProfile : Type := List (String × (List Nat × List Nat × List Nat))

/-- Model of `CLIP.get_input_profile` (diffusers.py lines 442-455): the `input_ids`
triple over the batch bounds. -/
def CLIP.get_input_profile (m : BaseModel)
    (batch_size image_height image_width : Nat) (static_batch static_shape : Bool) :
    Except PyError ShapeProfile :=
  match m.check_dims batch_size image_height image_width with
  | .error e => .error e
  | .ok _ =>
    let d := m.get_minmax_dims batch_size image_height image_width static_batch static_shape
    .ok [("input_ids",
          ([d.min_batch, m.text_maxlen],
           [batch_size, m.text_maxlen],
           [d.max_batch, m.text_maxlen]))]

/-- The `UNet` adapter (diffusers.py lines 506-530): a `BaseModel` plus
the `unet_dim` channel count. -/
structure UNet where
  toBaseModel : BaseModel
  unet_dim : Nat
deriving DecidableEq, Repr

/-- Model of `UNet.__init__(..., max_batch_size, embedding_dim, text_maxlen, unet_dim)`. -/
def UNet.make (max_batch_size embedding_dim text_maxlen unet_dim : Nat) : UNet :=
  { toBaseModel := BaseModel.make max_batch_size embedding_dim text_maxlen
    unet_dim := unet_dim }

/-- Model of `UNet.get_input_profile` (diffusers.py lines 558-599): `sample` and
`encoder_hidden_states` triples, each with the batch axis doubled. -/
def UNet.get_input_profile (u : UNet)
    (batch_size image_height image_width : Nat) (static_batch static_shape : Bool) :
    Except PyError ShapeProfile :=
  match u.toBaseModel.check_dims batch_size image_height image_width with
  | .error e => .error e
  | .ok (latent_height, latent_width) =>
    let d := u.toBaseModel.get_minmax_dims batch_size image_height image_width
      static_batch static_shape
    .ok [("sample",
          ([2 * d.min_batch, u.unet_dim, d.min_latent_height, d.min_latent_width],
           [2 * batch_size, u.unet_dim, latent_height, latent_width],
           [2 * d.max_batch, u.unet_dim, d.max_latent_height, d.max_latent_width])),
         ("encoder_hidden_states",
          ([2 * d.min_batch, u.toBaseModel.text_maxlen, u.toBaseModel.embedding_dim],
           [2 * batch_size, u.toBaseModel.text_maxlen, u.toBaseModel.embedding_dim],
           [2 * d.max_batch, u.toBaseModel.text_maxlen, u.toBaseModel.embedding_dim]))]

/-- Model of `UNet.get_shape_dict(batch_size, image_height, image_width)`
(diffusers.py lines 601-618). -/
def UNet.get_shape_dict (u : UNet) (batch_size image_height image_width : Nat) :
    Except PyError (List (String × List Nat)) :=
  match u.toBaseModel.check_dims batch_size image_height image_width with
  | .error e => .error e
  | .ok (latent_height, latent_width) =>
    .ok [("sample", [2 * batch_size, u.unet_dim, latent_height, latent_width]),
         ("encoder_hidden_states",
          [2 * batch_size, u.toBaseModel.text_maxlen, u.toBaseModel.embedding_dim]),
         ("latent", [2 * batch_size, 4, latent_height, latent_width])]

/-- Model of `VAE.get_input_profile` (diffusers.py lines 693-719): the `latent`
triple over batch and latent bounds with a fixed channel count of 4. -/
def VAE.get_input_profile (m : BaseModel)
    (batch_size image_height image_width : Nat) (static_batch static_shape : Bool) :
    Except PyError ShapeProfile :=
  match m.check_dims batch_size image_height image_width with
  | .error e => .error e
  | .ok (latent_height, latent_width) =>
    let d := m.get_minmax_dims batch_size image_height image_width static_batch static_shape
    .ok [("latent",
          ([d.min_batch, 4, d.min_latent_height, d.min_latent_width],
           [batch_size, 4, latent_height, latent_width],
           [d.max_batch, 4, d.max_latent_height, d.max_latent_width]))]

/-- Model of `VAEEncoder.get_input_profile` (diffusers.py lines 799-827): an
extra leading batch-range `assert`, then `check_dims`, then the `images`
triple over batch and image bounds with a fixed channel count of 3.
(The source's two `min_batch`/`max_batch` local assignments before
`check_dims` are immediately shadowed by the `get_minmax_dims`
destructuring and have no effect.) -/
def VAEEncoder.get_input_profile (m : BaseModel)
    (batch_size image_height image_width : Nat) (static_batch static_shape : Bool) :
    Except PyError ShapeProfile :=
  if ¬ (m.min_batch ≤ batch_size ∧ batch_size ≤ m.max_batch) then .error .assertionError
  else
    match m.check_dims batch_size image_height image_width with
    | .error e => .error e
    | .ok _ =>
      let d := m.get_minmax_dims batch_size image_height image_width static_batch static_shape
      .ok [("images",
            ([d.min_batch, 3, d.min_image_height, d.min_image_width],
             [batch_size, 3, image_height, image_width],
             [d.max_batch, 3, d.max_image_height, d.max_image_width]))]

/-- Pointwise `min ≤ opt ≤ max` over three equal-length axis lists. -/
def axesMono : List Nat → List Nat → List Nat → Bool
  | a :: as, b :: bs, c :: cs => Nat.ble a b && Nat.ble b c && axesMono as bs cs
  | [], [], [] => true
  | _, _, _ => false

/-- An input-profile computation succeeded and every tensor's
`(min, opt, max)` triple is pointwise monotone. -/
def profileMono (r : Except PyError ShapeProfile) : Bool :=
  match r with
  | .ok p => p.all (fun e => axesMono e.2.1 e.2.2.1 e.2.2.2)
  | .error _ => false

/-- The folder part of `get_model_path` as the spec states it
(spec §4.1 `resolveFolder`): the base folder (the nested actor's base
folder for the ActorRL composite config), with a `"checkpoints"` segment
appended when a checkpoint is wanted, followed by the role segment;
`none` for any other config type (the spec's `ConfigurationError`).
This definition follows the spec's words and is compared against
`get_model_path` in the refinement theorem for claim C6. -/
def specResolveFolder : ConfigType → Bool → Option String
  | .actor mf _, wc =>
    some (joinPath (if wc then joinPath mf "checkpoints" else mf) "actor")
  | .reward mf _ ir, wc =>
    some (joinPath (if wc then joinPath mf "checkpoints" else mf)
      (if ir then "reward" else "critic"))
  | .composite amf _, wc =>
    some (joinPath (if wc then joinPath amf "checkpoints" else amf) "actor_rl")
  | .critic _ _, _ => none

/-- Helper: under the dimension precondition, `check_dims` succeeds and
returns the floor-divided latent dimensions. -/
theorem check_dims_ok (mbs ed tm b h w : Nat)
    (h1 : 1 ≤ b) (h2 : b ≤ mbs) (h3 : h % 8 = 0) (h4 : w % 8 = 0)
    (h5 : 32 ≤ h / 8) (h6 : h / 8 ≤ 128) (h7 : 32 ≤ w / 8) (h8 : w / 8 ≤ 128) :
    (BaseModel.make mbs ed tm).check_dims b h w = .ok (h / 8, w / 8) := by
  simp [BaseModel.make, BaseModel.check_dims, h1, h2, h3, h4, h5, h6, h7, h8]

/-- Claim C1 (code bug): `check_dims` joins its two divisibility asserts
with `or`, so a 513x512 image passes validation (512 is divisible by 8)
and floor division yields `(64, 64)`, although the spec requires both
dimensions divisible by 8 and this input to fail; the in-spec input
512x512 also returns `(64, 64)`. -/
theorem check_dims_accepts_height_not_divisible :
    (BaseModel.make 16 768 77).check_dims 1 513 512 = .ok (64, 64) ∧
    (BaseModel.make 16 768 77).check_dims 1 512 512 = .ok (64, 64) ∧
    (BaseModel.make 16 768 77).check_dims 1 513 513 = .error .assertionError :=
  ⟨rfl, rfl, rfl⟩

/-- Claim C2 (code bug): `check_model_path` returns only the single value
`path` — here `none` for a query with `is_checkpoint` and no epoch over an
existing but empty checkpoints folder — although its own docstring
documents returning both the path and the epoch. -/
theorem check_model_path_empty_folder_single_none :
    check_model_path [] (.actor "models" "llama") true none
      ⟨[("models/checkpoints/actor", [])], []⟩ = .ok none := rfl

/-- Claim C3: `look_for_last_checkpoint` sorts the matching filenames in
plain string order and returns the last; on a folder holding exactly
`m_epoch_3.pt`, `m_epoch_10.pt`, `m_epoch_2.pt` with model name `m` it
returns the string-maximum `m_epoch_3.pt`, not the numeric-maximum
`m_epoch_10.pt`, as witnessed by the ascending sorted order. -/
theorem look_for_last_checkpoint_string_sort_example :
    look_for_last_checkpoint
      ⟨[("ckpt", ["m_epoch_3.pt", "m_epoch_10.pt", "m_epoch_2.pt"])], []⟩
      "ckpt" "m" = .ok (some "m_epoch_3.pt") ∧
    sortedStrings ["m_epoch_3.pt", "m_epoch_10.pt", "m_epoch_2.pt"] =
      ["m_epoch_10.pt", "m_epoch_2.pt", "m_epoch_3.pt"] :=
  ⟨rfl, rfl⟩

/-- Claim C4, counterexample: on a folder that does not exist,
`look_for_last_checkpoint` does not return `None` silently — the
`os.listdir` call raises `FileNotFoundError`. -/
theorem look_for_last_checkpoint_missing_folder_raises :
    look_for_last_checkpoint ⟨[], []⟩ "ckpt" "m" ≠ .ok none ∧
    look_for_last_checkpoint ⟨[], []⟩ "ckpt" "m" = .error .fileNotFoundError :=
  ⟨fun hc => Except.noConfusion hc, rfl⟩

/-- Claim C4, amended: `look_for_last_checkpoint` returns `None` when the
folder exists but contains no entry starting with the extension-stripped
model name; when the folder does not exist, `os.listdir` raises
`FileNotFoundError` instead. -/
theorem look_for_last_checkpoint_not_found_amended :
    ∀ (fs : FileSystem) (folder name : String),
      (fs.listdir folder = none →
        look_for_last_checkpoint fs folder name = .error .fileNotFoundError) ∧
      (∀ entries, fs.listdir folder = some entries →
        (entries.filter
          (fun f => pyStartswith f ((pySplit '.' name).headD ""))).length = 0 →
        look_for_last_checkpoint fs folder name = .ok none) := by
  intro fs folder name
  constructor
  · intro hm
    simp [look_for_last_checkpoint, hm]
  · intro entries he hlen
    simp only [look_for_last_checkpoint, he]
    rw [if_pos hlen]

/-- Witness for claim C4's amended theorem at a concrete folder holding a
single non-matching entry. -/
theorem look_for_last_checkpoint_not_found_witness :
    look_for_last_checkpoint ⟨[("ckpt", ["x.bin"])], []⟩ "ckpt" "m" = .ok none :=
  (look_for_last_checkpoint_not_found_amended
    ⟨[("ckpt", ["x.bin"])], []⟩ "ckpt" "m").2 ["x.bin"] rfl (by decide)

/-- Claim C5: whenever `get_model_path` succeeds, its returned `path` is
`None` exactly in the `is_checkpoint`-with-no-epoch case and is the join
of the returned folder and filename in every other case. -/
theorem get_model_path_fullpath_iff :
    ∀ (hf_models : List String) (config : ConfigType) (is_checkpoint : Bool)
      (current_epoch : Option Nat) (fs : FileSystem)
      (folder name : String) (p : Option String) (fs' : FileSystem),
      get_model_path hf_models config is_checkpoint current_epoch fs =
        .ok ((folder, name, p), fs') →
      p = (match is_checkpoint, current_epoch with
           | true, none => none
           | _, _ => some (joinPath folder name)) := by
  intro hf config is_cp epoch fs folder name p fs' h
  cases config <;> cases is_cp <;> cases epoch <;>
    simp [get_model_path, configBaseFolder, configIdent, roleSegment] at h <;>
    (obtain ⟨⟨h1, h2, h3⟩, h4⟩ := h
     subst h1
     subst h2
     subst h3
     rfl)

/-- Witness for claim C5 at a concrete non-checkpoint query. -/
theorem get_model_path_fullpath_witness :
    (some "base/actor/x.pt" : Option String) = some (joinPath "base/actor" "x.pt") :=
  get_model_path_fullpath_iff [] (.actor "base" "x") false none
    ⟨[("base/actor", [])], []⟩ "base/actor" "x.pt" (some "base/actor/x.pt")
    ⟨[("base/actor", [])], []⟩ rfl

/-- Claim C6: the folder computed by `get_model_path` refines the spec's
`resolveFolder` — base folder (the nested actor's for the composite
config), then `"checkpoints"` when a checkpoint is wanted, then the role
segment (`reward`/`critic` by the reward flag, `actor`, `actor_rl`) — and
any other config type (`ConfigCritic`) raises the configuration
`ValueError`. -/
theorem get_model_path_folder_refines_spec :
    ∀ (hf_models : List String) (config : ConfigType) (is_checkpoint : Bool)
      (current_epoch : Option Nat) (fs : FileSystem),
      (∀ folder name p fs',
        get_model_path hf_models config is_checkpoint current_epoch fs =
          .ok ((folder, name, p), fs') →
        specResolveFolder config is_checkpoint = some folder) ∧
      (specResolveFolder config is_checkpoint = none →
        get_model_path hf_models config is_checkpoint current_epoch fs =
          .error (.valueError "Config type not recognized during saving or loading")) := by
  intro hf config is_cp epoch fs
  constructor
  · intro folder name p fs' h
    cases config <;> cases is_cp <;>
      simp [get_model_path, configBaseFolder, configIdent, roleSegment] at h <;>
      (obtain ⟨⟨h1, h2, h3⟩, h4⟩ := h
       subst h1
       simp [specResolveFolder])
  · intro hnone
    cases config <;> simp [specResolveFolder] at hnone
    simp [get_model_path, configBaseFolder]

/-- Witness for claim C6 at the unrecognized `ConfigCritic` config. -/
theorem get_model_path_folder_refines_spec_witness :
    get_model_path [] (.critic "base" "x") false none ⟨[], []⟩ =
      .error (.valueError "Config type not recognized during saving or loading") :=
  (get_model_path_folder_refines_spec [] (.critic "base" "x") false none ⟨[], []⟩).2 rfl

/-- Claim C7: the filename computed by `get_model_path` starts from the
config's identifier collapsed to its trailing path segment exactly when
the identifier is a member of the `hf_models` allow-list, and from the
identifier unchanged otherwise, before the `.pt` / `_epoch_{e}.pt`
suffix is appended. -/
theorem get_model_path_name_allowlist :
    ∀ (hf_models : List String) (config : ConfigType) (is_checkpoint : Bool)
      (current_epoch : Option Nat) (fs : FileSystem) (ident : String)
      (folder name : String) (p : Option String) (fs' : FileSystem),
      configIdent config = some ident →
      get_model_path hf_models config is_checkpoint current_epoch fs =
        .ok ((folder, name, p), fs') →
      (match is_checkpoint, current_epoch with
       | true, some e =>
          name = (if hf_models.contains ident then lastPathSegment ident else ident) ++
            "_epoch_" ++ toString e ++ ".pt"
       | _, _ =>
          name = (if hf_models.contains ident then lastPathSegment ident else ident) ++
            ".pt") := by
  intro hf config is_cp epoch fs ident folder name p fs' hid h
  cases config <;> simp [configIdent] at hid
  all_goals
    subst hid
    cases is_cp <;> cases epoch <;>
      simp [get_model_path, configBaseFolder, configIdent, roleSegment] at h <;>
      (obtain ⟨⟨h1, h2, h3⟩, h4⟩ := h
       subst h2
       simp [List.contains])

/-- Witness for claim C7: a hub identifier on the allow-list is collapsed
to its trailing segment in a checkpoint filename. -/
theorem get_model_path_name_allowlist_witness :
    ("name_epoch_7.pt" : String) =
      (if List.contains ["org/name"] "org/name" then lastPathSegment "org/name"
       else "org/name") ++ "_epoch_" ++ toString 7 ++ ".pt" :=
  get_model_path_name_allowlist ["org/name"] (.actor "base" "org/name") true (some 7)
    ⟨[("base/checkpoints/actor", [])], []⟩ "org/name" "base/checkpoints/actor"
    "name_epoch_7.pt" (some "base/checkpoints/actor/name_epoch_7.pt")
    ⟨[("base/checkpoints/actor", [])], []⟩ rfl rfl

/-- Claim C8: `UNet.get_shape_dict` with batch size 2, a 512x512 image,
4 channels and embedding dimension 768 returns exactly the shapes
`sample = (4, 4, 64, 64)`, `encoder_hidden_states = (4, 77, 768)`,
`latent = (4, 4, 64, 64)`, every batch axis doubled. -/
theorem unet_get_shape_dict_example :
    (UNet.make 16 768 77 4).get_shape_dict 2 512 512 =
      .ok [("sample", [4, 4, 64, 64]),
           ("encoder_hidden_states", [4, 77, 768]),
           ("latent", [4, 4, 64, 64])] := rfl

/-- Claim C9: for every role (text encoder, denoiser, VAE decoder, VAE
encoder), every input satisfying the `check_dims` precondition and every
combination of the static-batch and static-shape flags, the
`get_input_profile` computation succeeds and every axis of every
`(min, opt, max)` triple built from `get_minmax_dims` satisfies
`min ≤ opt ≤ max`. -/
theorem get_input_profile_mono :
    ∀ (mbs ed tm ud b h w : Nat) (sb ss : Bool),
      1 ≤ b → b ≤ mbs → h % 8 = 0 → w % 8 = 0 →
      32 ≤ h / 8 → h / 8 ≤ 128 → 32 ≤ w / 8 → w / 8 ≤ 128 →
      profileMono (CLIP.get_input_profile (BaseModel.make mbs ed tm) b h w sb ss) = true ∧
      profileMono ((UNet.make mbs ed tm ud).get_input_profile b h w sb ss) = true ∧
      profileMono (VAE.get_input_profile (BaseModel.make mbs ed tm) b h w sb ss) = true ∧
      profileMono (VAEEncoder.get_input_profile (BaseModel.make mbs ed tm) b h w sb ss) = true := by
  intro mbs ed tm ud b h w sb ss h1 h2 h3 h4 h5 h6 h7 h8
  have hcd := check_dims_ok mbs ed tm b h w h1 h2 h3 h4 h5 h6 h7 h8
  refine ⟨?_, ?_, ?_, ?_⟩ <;>
  · simp only [CLIP.get_input_profile, UNet.get_input_profile, VAE.get_input_profile,
      VAEEncoder.get_input_profile, UNet.make, hcd]
    cases sb <;> cases ss <;>
      simp [profileMono, axesMono, BaseModel.get_minmax_dims, BaseModel.make,
        h1, h2, Nat.ble_eq] <;>
      omega

/-- Witness for claim C9 at batch 1, a 512x512 image, fully dynamic
flags and the default role constants. -/
theorem get_input_profile_mono_witness :
    profileMono (CLIP.get_input_profile (BaseModel.make 16 768 77) 1 512 512 false false)
        = true ∧
    profileMono ((UNet.make 16 768 77 4).get_input_profile 1 512 512 false false) = true ∧
    profileMono (VAE.get_input_profile (BaseModel.make 16 768 77) 1 512 512 false false)
        = true ∧
    profileMono (VAEEncoder.get_input_profile (BaseModel.make 16 768 77) 1 512 512
        false false) = true :=
  get_input_profile_mono 16 768 77 4 1 512 512 false false (by decide) (by decide)
    (by decide) (by decide) (by decide) (by decide) (by decide) (by decide)

/-- Claim C10: a checkpoint query that supplies the epoch and whose
resolved checkpoint file exists on disk makes `check_model_path` reach
the epoch-extraction line with the local `last_checkpoint` unbound (it is
bound only in the scan branch taken when the epoch is absent), raising
`NameError` instead of returning the resolved path. -/
theorem check_model_path_supplied_epoch_nameerror :
    ∀ (hf_models : List String) (config : ConfigType) (e : Nat) (fs : FileSystem)
      (folder name q : String) (fs' : FileSystem),
      get_model_path hf_models config true (some e) fs = .ok ((folder, name, some q), fs') →
      fs'.pathExists q = true →
      check_model_path hf_models config true (some e) fs = .error .nameError := by
  intro hf config e fs folder name q fs' h hex
  simp only [check_model_path, h]
  simp [hex]

/-- Witness for claim C10: an actor checkpoint query for epoch 3 whose
checkpoint file exists. -/
theorem check_model_path_supplied_epoch_nameerror_witness :
    check_model_path [] (.actor "base" "x") true (some 3)
      ⟨[("base/checkpoints/actor", [])], ["base/checkpoints/actor/x_epoch_3.pt"]⟩ =
      .error .nameError :=
  check_model_path_supplied_epoch_nameerror [] (.actor "base" "x") 3
    ⟨[("base/checkpoints/actor", [])], ["base/checkpoints/actor/x_epoch_3.pt"]⟩
    "base/checkpoints/actor" "x_epoch_3.pt" "base/checkpoints/actor/x_epoch_3.pt"
    ⟨[("base/checkpoints/actor", [])], ["base/checkpoints/actor/x_epoch_3.pt"]⟩ rfl rfl
